import Mathlib

/-!
Verification development for the ball-speed-analyzer repository.

The repository ships a Next.js frontend (`frontend/app/page.tsx`) that uploads a
video to a FastAPI backend and renders the returned `AnalysisResult`.  The
backend measurement pipeline (frame source, sequence normalizer, detector
adapter, tracker, calibrator, speed estimator, orchestrator) is described in
the specification; its Python source (`main.py`) is not part of the checked-in
sources, so those components are modelled here directly from the specification
text, while the frontend handlers are embedded from `page.tsx`.

All real-number quantities are modelled as rationals; the pixel-distance
function used by the tracker and the speed estimator is a parameter, so the
results hold for any choice of planar metric.
-/

namespace BallSpeed

/-- A pixel-space position (x, y). -/
abbrev Pos : Type := ℚ × ℚ

/-- The L1 pixel distance, used as a concrete instance of the distance
parameter in witnesses. -/
def l1dist (p q : Pos) : ℚ := |p.1 - q.1| + |p.2 - q.2|

/-- Detection class labels: the ball and the catcher's mitt. -/
inductive DetLabel : Type
| ball : DetLabel
| mitt : DetLabel
deriving DecidableEq, Repr

/-- Modelled from the spec: a Detection is a class label, a bounding box
(x, y, width, height) in pixel space, and a confidence. -/
structure Detection : Type where
  label : DetLabel
  x : ℚ
  y : ℚ
  w : ℚ
  h : ℚ
  confidence : ℚ
deriving DecidableEq, Repr

/-- Whether a detection is of the ball class. -/
def isBall (d : Detection) : Bool :=
  match d.label with
  | DetLabel.ball => true
  | DetLabel.mitt => false

/-- Whether a detection is of the mitt class. -/
def isMitt (d : Detection) : Bool :=
  match d.label with
  | DetLabel.ball => false
  | DetLabel.mitt => true

/-- Center of a detection's bounding box. -/
def center (d : Detection) : Pos := (d.x + d.w / 2, d.y + d.h / 2)

/-- Modelled from the spec: the mitt's apparent pixel size, defined
consistently as max(width, height). -/
def apparentSize (d : Detection) : ℚ := max d.w d.h

/-- Modelled from the spec: server-side configuration (slow-motion factor,
mitt physical size, default scale, thresholds, tracker parameters). -/
structure Config : Type where
  slowmo_factor : ℚ
  mitt_size_m : ℚ
  default_scale : ℚ
  conf_threshold : ℚ
  minMittDetections : ℕ
  trimFraction : ℚ
  confirmN : ℕ
  missBudget : ℕ
  maxDist : ℚ
deriving DecidableEq, Repr

/-- Modelled from the spec: the Detector Adapter drops detections below the
configured confidence threshold before returning. -/
def detectorAdapter (cfg : Config) (dets : List Detection) : List Detection :=
  dets.filter (fun d => decide (cfg.conf_threshold ≤ d.confidence))

/-- A point of a Track: frame index, position, confidence. -/
structure TrackPoint : Type where
  frameIdx : ℕ
  pos : Pos
  conf : ℚ
deriving DecidableEq, Repr

/-- A Track: its ordered points and the number of frames it spent in the
Confirmed state. -/
structure Track : Type where
  points : List TrackPoint
  confirmedCount : ℕ
deriving DecidableEq, Repr

/-- Tracker phases of the per-candidate state machine. -/
inductive TrackPhase : Type
| noTrack : TrackPhase
| tentative : TrackPhase
| confirmed : TrackPhase
deriving DecidableEq, Repr

/-- Modelled from the spec: the Tracker's running state — current candidate
track, consecutive-hit and missed-frame counters, and already closed tracks. -/
structure TrackerSt : Type where
  phase : TrackPhase
  current : List TrackPoint
  consec : ℕ
  missed : ℕ
  confirmedCount : ℕ
  closedTracks : List Track
deriving DecidableEq, Repr

/-- The initial tracker state. -/
def initialTracker : TrackerSt :=
  { phase := TrackPhase.noTrack, current := [], consec := 0, missed := 0,
                                 confirmedCount := 0, closedTracks := [] }

/-- Build a track point from a detection at a frame index. -/
def mkPoint (idx : ℕ) (d : Detection) : TrackPoint :=
  { frameIdx := idx, pos := center d, conf := d.confidence }

/-- Modelled from the spec: constant-velocity extrapolation of the next
position from the last two track points. -/
def predictPos (pts : List TrackPoint) (idx : ℕ) : Pos :=
  match pts.reverse with
  | [] => (0, 0)
  | [p] => p.pos
  | pLast :: pPrev :: _ =>
      let dt : ℚ := (pLast.frameIdx : ℚ) - (pPrev.frameIdx : ℚ)
      let s : ℚ := ((idx : ℚ) - (pLast.frameIdx : ℚ)) / dt
      (pLast.pos.1 + (pLast.pos.1 - pPrev.pos.1) * s,
       pLast.pos.2 + (pLast.pos.2 - pPrev.pos.2) * s)

/-- Detections lying within the bounded pixel distance of the predicted
position. -/
def gatedDets (dist : Pos → Pos → ℚ) (cfg : Config) (pred : Pos)
    (dets : List Detection) : List Detection :=
  dets.filter (fun d => decide (dist (center d) pred ≤ cfg.maxDist))

/-- Modelled from the spec: among simultaneous detections, the one closest to
the predicted position is accepted. -/
def closestTo (dist : Pos → Pos → ℚ) (pred : Pos) (dets : List Detection) :
    Option Detection :=
  dets.foldl
    (fun acc d =>
      match acc with
      | none => some d
      | some b => if dist (center d) pred < dist (center b) pred then some d else some b)
    none

/-- Modelled from the spec: one step of the Tracker state machine
(NoTrack → Tentative → Confirmed → Closed) on the ball detections of one
frame. -/
def trackerStep (dist : Pos → Pos → ℚ) (cfg : Config) (idx : ℕ)
    (dets : List Detection) (st : TrackerSt) : TrackerSt :=
  match st.phase with
  | TrackPhase.noTrack =>
    match dets with
    | [] => st
    | d :: _ =>
        { st with phase := TrackPhase.tentative,
                  current := [mkPoint idx d],
                  consec := 0, missed := 0, confirmedCount := 0 }
  | TrackPhase.tentative =>
    let pred := predictPos st.current idx
    match closestTo dist pred (gatedDets dist cfg pred dets) with
    | some d =>
        if cfg.confirmN ≤ st.consec + 1 then
          { st with phase := TrackPhase.confirmed,
                    current := st.current ++ [mkPoint idx d],
                    consec := st.consec + 1, missed := 0, confirmedCount := 1 }
        else
          { st with current := st.current ++ [mkPoint idx d], consec := st.consec + 1 }
    | none =>
        { st with phase := TrackPhase.noTrack, current := [], consec := 0,
                  missed := 0, confirmedCount := 0 }
  | TrackPhase.confirmed =>
    let pred := predictPos st.current idx
    match closestTo dist pred (gatedDets dist cfg pred dets) with
    | some d =>
        { st with current := st.current ++ [mkPoint idx d], missed := 0,
                  confirmedCount := st.confirmedCount + 1 }
    | none =>
        if cfg.missBudget < st.missed + 1 then
          { st with phase := TrackPhase.noTrack,
                    closedTracks := st.closedTracks ++
                      [{ points := st.current, confirmedCount := st.confirmedCount }],
                    current := [], consec := 0, missed := 0, confirmedCount := 0 }
        else
          { st with missed := st.missed + 1 }

/-- Run the tracker over the per-frame ball detections, frames indexed from
`idx` upwards. -/
def runTrackerAux (dist : Pos → Pos → ℚ) (cfg : Config) :
    List (List Detection) → ℕ → TrackerSt → TrackerSt
  | [], _, st => st
  | dets :: rest, idx, st =>
      runTrackerAux dist cfg rest (idx + 1) (trackerStep dist cfg idx dets st)

/-- Close the remaining candidate at the end of the frame sequence. -/
def finalizeTracker (st : TrackerSt) : List Track :=
  st.closedTracks ++ [{ points := st.current, confirmedCount := st.confirmedCount }]

/-- Modelled from the spec: the Tracker, run over the whole frame sequence;
returns every track it produced. -/
def runTracker (dist : Pos → Pos → ℚ) (cfg : Config)
    (frames : List (List Detection)) : List Track :=
  finalizeTracker (runTrackerAux dist cfg frames 0 initialTracker)

/-- Modelled from the spec: the output Track is the one with the most frames
in Confirmed state; none if no track ever reached Confirmed. -/
def bestTrack (tracks : List Track) : Option Track :=
  (tracks.filter (fun t => decide (0 < t.confirmedCount))).foldl
    (fun acc t =>
      match acc with
      | none => some t
      | some b => if b.confirmedCount < t.confirmedCount then some t else some b)
    none

/-- Insert a rational into a sorted list, keeping it sorted. -/
def insertSorted (a : ℚ) : List ℚ → List ℚ
  | [] => [a]
  | b :: t => if a ≤ b then a :: b :: t else b :: insertSorted a t

/-- Insertion sort on rationals (ascending). -/
def sortQ : List ℚ → List ℚ
  | [] => []
  | a :: t => insertSorted a (sortQ t)

/-- Median of a list of rationals (average of the two middle elements for an
even length). -/
def median (l : List ℚ) : ℚ :=
  let s := sortQ l
  let n := l.length
  if n % 2 = 1 then s.getD (n / 2) 0
  else (s.getD (n / 2 - 1) 0 + s.getD (n / 2) 0) / 2

/-- Calibration method strings as they appear in the response. -/
def mittAutoMethod : String := "mitt_auto"

/-- Calibration fallback method string. -/
def fallbackMethod : String := "default_fallback"

/-- Modelled from the spec: the Calibration record. -/
structure Calibration : Type where
  scale_factor : ℚ
  method : String
  mitt_detected : Bool
deriving DecidableEq, Repr

/-- Modelled from the spec: the Calibrator computes
scale_factor = known mitt physical size / median apparent pixel size when at
least K qualifying mitt detections exist, and otherwise falls back to the
configured default scale. -/
def calibrate (cfg : Config) (sizes : List ℚ) : Calibration :=
  if cfg.minMittDetections ≤ sizes.length ∧ sizes ≠ [] then
    { scale_factor := cfg.mitt_size_m / median sizes,
      method := mittAutoMethod, mitt_detected := true }
  else
    { scale_factor := cfg.default_scale,
      method := fallbackMethod, mitt_detected := false }

/-- Modelled from the spec: real seconds per frame = slowmo_factor / fps. -/
def realSecondsPerFrame (cfg : Config) (fps : ℚ) : ℚ := cfg.slowmo_factor / fps

/-- Modelled from the spec: real elapsed time between two track points. -/
def pairElapsed (cfg : Config) (fps : ℚ) (a b : TrackPoint) : ℚ :=
  ((b.frameIdx : ℚ) - (a.frameIdx : ℚ)) * realSecondsPerFrame cfg fps

/-- Modelled from the spec: instantaneous speed of a pair of track points,
pixel_distance × scale_factor / elapsed_seconds (in m/s). -/
def instSpeed (dist : Pos → Pos → ℚ) (cfg : Config) (fps scale : ℚ)
    (a b : TrackPoint) : ℚ :=
  dist a.pos b.pos * scale / pairElapsed cfg fps a b

/-- Consecutive pairs of a list. -/
def consecutivePairs (pts : List TrackPoint) : List (TrackPoint × TrackPoint) :=
  pts.zip pts.tail

/-- Per-consecutive-pair instantaneous speeds of a track. -/
def instSpeeds (dist : Pos → Pos → ℚ) (cfg : Config) (fps scale : ℚ)
    (pts : List TrackPoint) : List ℚ :=
  (consecutivePairs pts).map (fun p => instSpeed dist cfg fps scale p.1 p.2)

/-- Number of elements trimmed from each end of a list of length n. -/
def trimCount (f : ℚ) (n : ℕ) : ℕ := (⌊f * (n : ℚ)⌋).toNat

/-- Modelled from the spec: trimmed selection — sort, discard the top and
bottom outlier fraction. -/
def trimOutliers (f : ℚ) (l : List ℚ) : List ℚ :=
  let k := trimCount f l.length
  ((sortQ l).drop k).take (l.length - 2 * k)

/-- Arithmetic mean of a list of rationals. -/
def mean (l : List ℚ) : ℚ := l.sum / (l.length : ℚ)

/-- Conversion from m/s to km/h. -/
def msToKmh (x : ℚ) : ℚ := x * (18 / 5)

/-- The km/h → mph conversion factor used by the system. -/
def mphFactor : ℚ := 621371 / 1000000

/-- Modelled from the spec: tracking_duration_ms is the real elapsed time
between the first and last confirmed point, in milliseconds. -/
def trackingDurationMs (cfg : Config) (fps : ℚ) (pts : List TrackPoint) : ℚ :=
  match pts.head?, pts.getLast? with
  | some a, some b => pairElapsed cfg fps a b * 1000
  | _, _ => 0

/-- Pipeline failure modes from the spec's error taxonomy. -/
inductive PipelineError : Type
| insufficientDetection : PipelineError
deriving DecidableEq, Repr

/-- The Speed Estimator's successful output. -/
structure SpeedOutput : Type where
  speed_kmh : ℚ
  speed_mph : ℚ
  tracking_duration_ms : ℚ
deriving DecidableEq, Repr

/-- Modelled from the spec: the Speed Estimator — per-pair instantaneous
speeds, trimmed mean, conversion to km/h and mph; fails when fewer than 2
usable pairs remain after trimming. -/
def speedEstimator (dist : Pos → Pos → ℚ) (cfg : Config) (fps scale : ℚ)
    (pts : List TrackPoint) : Except PipelineError SpeedOutput :=
  let speeds := instSpeeds dist cfg fps scale pts
  let trimmed := trimOutliers cfg.trimFraction speeds
  if trimmed.length < 2 then Except.error PipelineError.insufficientDetection
  else
    let kmh := msToKmh (mean trimmed)
    Except.ok
      { speed_kmh := kmh, speed_mph := kmh * mphFactor,
        tracking_duration_ms := trackingDurationMs cfg fps pts }

/-- Modelled from the spec: the decoded input to the pipeline — the video's
fps and, per frame (in normalized temporal order), the detections produced by
the external detection capability. -/
structure VideoInput : Type where
  fps : ℚ
  framesDets : List (List Detection)
deriving DecidableEq, Repr

/-- The AnalysisResult record, with optional fields exactly as in the
frontend's AnalysisResult interface (`frontend/app/page.tsx`). -/
structure AnalysisResult : Type where
  success : Bool
  speed_kmh : Option ℚ
  speed_mph : Option ℚ
  detected_frames : Option ℕ
  fps : Option ℚ
  total_frames : Option ℕ
  tracking_duration_ms : Option ℚ
  mitt_detected : Option Bool
  calibration_method : Option String
  scale_factor : Option ℚ
  slowmo_factor : Option ℚ
  warning : Option String
  message : Option String
deriving DecidableEq, Repr

/-- Failure message for an empty video. -/
def msgEmptyVideo : String := "EmptyVideoError: no frames decoded"

/-- Failure message for a non-positive frame rate. -/
def msgBadFps : String := "UnsupportedFrameRateError: fps must be positive"

/-- Failure message when the tracker never reaches Confirmed. -/
def msgInsufficient : String := "InsufficientDetectionError: too few usable ball detections"

/-- Warning text surfaced on the calibration fallback path. -/
def warnFallback : String := "mitt not detected; falling back to the default scale_factor"

/-- Modelled from the spec: a fatal outcome — success false, a human-readable
message, and no partial numeric fields. -/
def failResult (m : String) : AnalysisResult :=
  { success := false, speed_kmh := none, speed_mph := none,
    detected_frames := none, fps := none, total_frames := none,
    tracking_duration_ms := none, mitt_detected := none,
    calibration_method := none, scale_factor := none, slowmo_factor := none,
    warning := none, message := some m }

/-- Per-frame ball detections after the adapter's confidence filter. -/
def ballFramesOf (cfg : Config) (v : VideoInput) : List (List Detection) :=
  v.framesDets.map (fun ds => (detectorAdapter cfg ds).filter isBall)

/-- Apparent pixel sizes of the qualifying mitt detections across all
frames. -/
def mittSizesOf (cfg : Config) (v : VideoInput) : List ℚ :=
  (((v.framesDets.map (detectorAdapter cfg)).flatten).filter isMitt).map
    apparentSize

/-- The track the Tracker hands to the rest of the pipeline, when one reached
Confirmed. -/
def acceptedTrack (dist : Pos → Pos → ℚ) (cfg : Config) (v : VideoInput) :
    Option Track :=
  bestTrack (runTracker dist cfg (ballFramesOf cfg v))

/-- The successful AnalysisResult assembled by the Orchestrator from the
accepted track, the calibration, and the Speed Estimator's output. -/
def successResult (cfg : Config) (v : VideoInput) (track : Track)
    (cal : Calibration) (out : SpeedOutput) : AnalysisResult :=
  { success := true,
    speed_kmh := some out.speed_kmh,
    speed_mph := some out.speed_mph,
    detected_frames := some track.points.length,
    fps := some v.fps,
    total_frames := some v.framesDets.length,
    tracking_duration_ms := some out.tracking_duration_ms,
    mitt_detected := some cal.mitt_detected,
    calibration_method := some cal.method,
    scale_factor := some cal.scale_factor,
    slowmo_factor := some cfg.slowmo_factor,
    warning := if cal.mitt_detected then none else some warnFallback,
    message := none }

/-- Modelled from the spec: the Pipeline Orchestrator — sequences decoding
checks, detection, tracking, calibration and speed estimation, and assembles
the AnalysisResult (fatal errors short-circuit to a failure record). -/
def analyze (dist : Pos → Pos → ℚ) (cfg : Config) (v : VideoInput) :
    AnalysisResult :=
  if v.framesDets.length = 0 then failResult msgEmptyVideo
  else if v.fps ≤ 0 then failResult msgBadFps
  else
    match acceptedTrack dist cfg v with
    | none => failResult msgInsufficient
    | some track =>
      let cal := calibrate cfg (mittSizesOf cfg v)
      match speedEstimator dist cfg v.fps cal.scale_factor track.points with
      | Except.error _ => failResult msgInsufficient
      | Except.ok out => successResult cfg v track cal out

/-- The field names of the frontend's AnalysisResult interface
(`frontend/app/page.tsx`, lines 6-20), in declaration order. -/
def frontendResultFields : List String :=
  ["success", "speed_kmh", "speed_mph", "detected_frames", "fps",
   "total_frames", "tracking_duration_ms", "mitt_detected",
   "calibration_method", "scale_factor", "slowmo_factor", "warning",
   "message"]

/-- Whether the serialized response for a result carries a given field key
(success is always present; optional fields only when populated). -/
def fieldPresent (r : AnalysisResult) (k : String) : Bool :=
  if k = "success" then true
  else if k = "speed_kmh" then r.speed_kmh.isSome
  else if k = "speed_mph" then r.speed_mph.isSome
  else if k = "detected_frames" then r.detected_frames.isSome
  else if k = "fps" then r.fps.isSome
  else if k = "total_frames" then r.total_frames.isSome
  else if k = "tracking_duration_ms" then r.tracking_duration_ms.isSome
  else if k = "mitt_detected" then r.mitt_detected.isSome
  else if k = "calibration_method" then r.calibration_method.isSome
  else if k = "scale_factor" then r.scale_factor.isSome
  else if k = "slowmo_factor" then r.slowmo_factor.isSome
  else if k = "warning" then r.warning.isSome
  else if k = "message" then r.message.isSome
  else false

/-- The JSON keys present in the serialized response for a given
AnalysisResult (optional fields are omitted when absent). -/
def responseKeys (r : AnalysisResult) : List String :=
  frontendResultFields.filter (fieldPresent r)

/-- The keys of a successful response, before the optional warning. -/
def successBaseKeys : List String :=
  ["success", "speed_kmh", "speed_mph", "detected_frames", "fps",
   "total_frames", "tracking_duration_ms", "mitt_detected",
   "calibration_method", "scale_factor", "slowmo_factor"]

/-! ## Frontend component (`frontend/app/page.tsx`) -/

/-- A file selected in the browser, as far as the handlers inspect it. -/
structure WebFile : Type where
  name : String
  size : ℕ
deriving DecidableEq, Repr

/-- The ErrorDetails record built by the upload handler. -/
structure ErrorDetails : Type where
  errName : Option String
  errMessage : Option String
  etype : Option String
deriving DecidableEq, Repr

/-- The component's React state:
file, loading, result, error, errorDetails, dragActive. -/
structure ComponentState : Type where
  file : Option WebFile
  loading : Bool
  result : Option AnalysisResult
  error : Option String
  errorDetails : Option ErrorDetails
  dragActive : Bool
deriving DecidableEq, Repr

/-- Message set when no file is selected (page.tsx line 71). -/
def msgSelectFile : String := "ファイルを選択してください"

/-- Fallback message when the API reports failure without a message
(page.tsx line 119). -/
def msgAnalysisFailed : String := "分析に失敗しました"

/-- Message set on a network error (page.tsx line 134). -/
def msgNetworkFailed : String :=
  "サーバーに接続できませんでした。FastAPIが起動しているか確認してください。"

/-- Outcome of the fetch to /api/analyze: a parsed JSON response, or a thrown
network/parse error. -/
inductive FetchOutcome : Type
| response : AnalysisResult → FetchOutcome
| networkError : String → String → FetchOutcome
deriving DecidableEq, Repr

/-- Embedded from page.tsx, handleFileChange (lines 38-45): on a change event
carrying at least one file, store it and clear result and error. -/
def handleFileChange (s : ComponentState) (files : List WebFile) :
    ComponentState :=
  match files.head? with
  | some f => { s with file := some f, result := none, error := none }
  | none => s

/-- Embedded from page.tsx, handleDrop (lines 57-67): clear dragActive; if the
drop carries at least one file, store it and clear result and error. -/
def handleDrop (s : ComponentState) (files : List WebFile) : ComponentState :=
  let s1 := { s with dragActive := false }
  match files.head? with
  | some f => { s1 with file := some f, result := none, error := none }
  | none => s1

/-- JavaScript string truthiness used by `data.message || fallback`. -/
def jsStringOr (o : Option String) (fallback : String) : String :=
  match o with
  | some m => if m = "" then fallback else m
  | none => fallback

/-- Embedded from page.tsx, handleUpload (lines 69-146): with no file
selected, set the selection error and return (no fetch); otherwise clear
state, issue the request, and dispatch on the outcome.  The boolean of the
returned pair records whether a network request was issued. -/
def handleUpload (s : ComponentState) (outcome : FetchOutcome) :
    ComponentState × Bool :=
  match s.file with
  | none => ({ s with error := some msgSelectFile }, false)
  | some _ =>
    let s1 := { s with loading := true, error := none, errorDetails := none,
                       result := none }
    match outcome with
    | FetchOutcome.response data =>
        if data.success then
          ({ s1 with result := some data, loading := false }, true)
        else
          ({ s1 with error := some (jsStringOr data.message msgAnalysisFailed),
                     errorDetails := some { errName := none,
                                            errMessage := data.message,
                                            etype := "api_error" },
                     loading := false }, true)
    | FetchOutcome.networkError n m =>
        ({ s1 with error := some msgNetworkFailed,
                   errorDetails := some { errName := some n,
                                          errMessage := some m,
                                          etype := "network_error" },
                   loading := false }, true)

/-- The JSX renders the speed/result panel exactly when `result` is set
(page.tsx line 254). -/
def rendersSpeedPanel (s : ComponentState) : Bool := s.result.isSome

/-- The JSX renders the error panel exactly when `error` is set
(page.tsx line 234). -/
def rendersErrorPanel (s : ComponentState) : Bool := s.error.isSome

/-! ## Concrete inputs used to instantiate the general theorems -/

/-- A concrete configuration: 8x slow motion, 32 cm mitt, 0.01 m/pixel
default scale, 0.5 confidence threshold, K = 3, 10 percent trimming. -/
def cfgW : Config :=
  { slowmo_factor := 8, mitt_size_m := 8/25, default_scale := 1/100,
    conf_threshold := 1/2, minMittDetections := 3, trimFraction := 1/10,
    confirmN := 1, missBudget := 3, maxDist := 100 }

/-- A ball detection at a given horizontal pixel offset. -/
def ballDet (px : ℚ) : Detection :=
  { label := DetLabel.ball, x := px, y := 0, w := 10, h := 10,
    confidence := 9/10 }

/-- A 240 fps video of six frames whose ball moves 10 pixels per frame, with
no mitt in sight. -/
def vMoving : VideoInput :=
  { fps := 240,
    framesDets := [[ballDet 0], [ballDet 10], [ballDet 20], [ballDet 30],
                   [ballDet 40], [ballDet 50]] }

/-- A video with zero frames. -/
def vEmpty : VideoInput := { fps := 240, framesDets := [] }

/-- The track the Tracker produces on `vMoving`. -/
def ptsMoving : List TrackPoint :=
  [{ frameIdx := 0, pos := (5, 5), conf := 9/10 },
   { frameIdx := 1, pos := (15, 5), conf := 9/10 },
   { frameIdx := 2, pos := (25, 5), conf := 9/10 },
   { frameIdx := 3, pos := (35, 5), conf := 9/10 },
   { frameIdx := 4, pos := (45, 5), conf := 9/10 },
   { frameIdx := 5, pos := (55, 5), conf := 9/10 }]

/-- The track record built from `ptsMoving`. -/
def movingTrack : Track := { points := ptsMoving, confirmedCount := 5 }

/-- The Speed Estimator's output on `ptsMoving` with scale 0.01 m/pixel. -/
def movingSpeedOut : SpeedOutput :=
  { speed_kmh := 54/5, speed_mph := 16777017/2500000,
    tracking_duration_ms := 500/3 }

/-- The full analysis result on `vMoving`. -/
def movingResult : AnalysisResult :=
  { success := true,
    speed_kmh := some (54/5), speed_mph := some (16777017/2500000),
    detected_frames := some 6, fps := some 240, total_frames := some 6,
    tracking_duration_ms := some (500/3), mitt_detected := some false,
    calibration_method := some fallbackMethod, scale_factor := some (1/100),
    slowmo_factor := some 8, warning := some warnFallback, message := none }

/-- A track of four points during which the ball never moves. -/
def stationaryPts : List TrackPoint :=
  [{ frameIdx := 0, pos := (0, 0), conf := 1 },
   { frameIdx := 1, pos := (0, 0), conf := 1 },
   { frameIdx := 2, pos := (0, 0), conf := 1 },
   { frameIdx := 3, pos := (0, 0), conf := 1 }]

/-- The first track point of the spec's worked scenario. -/
def scenA : TrackPoint := { frameIdx := 0, pos := (0, 0), conf := 1 }

/-- The second track point of the spec's worked scenario, 3 frames later and
50 pixels away. -/
def scenB : TrackPoint := { frameIdx := 3, pos := (50, 0), conf := 1 }

/-- A component state with a file already selected. -/
def sWithFile : ComponentState :=
  { file := some { name := "video.mp4", size := 1000 }, loading := false,
    result := none, error := none, errorDetails := none, dragActive := false }

/-- A component state with no file selected. -/
def sNoFile : ComponentState :=
  { file := none, loading := false, result := none, error := none,
    errorDetails := none, dragActive := false }

/-- Frame indices of a point list are strictly increasing. -/
def ptsSorted (pts : List TrackPoint) : Prop :=
  List.Pairwise (fun a b => a.frameIdx < b.frameIdx) pts

/-- Every point of the list has frame index below n. -/
def ptsBelow (n : ℕ) (pts : List TrackPoint) : Prop :=
  ∀ p ∈ pts, p.frameIdx < n

/-- The tracker invariant after consuming frames 0..n-1: the current candidate
is sorted with indices below n, and every closed track is sorted. -/
def trackerInv (n : ℕ) (st : TrackerSt) : Prop :=
  ptsSorted st.current ∧ ptsBelow n st.current ∧
  ∀ t ∈ st.closedTracks, ptsSorted t.points

/-! ## Helper lemmas -/

theorem l1dist_nonneg (p q : Pos) : 0 ≤ l1dist p q :=
  add_nonneg (abs_nonneg _) (abs_nonneg _)

theorem insertSorted_perm (a : ℚ) (l : List ℚ) :
    List.Perm (insertSorted a l) (a :: l) := by
  induction l with
  | nil => simp [insertSorted]
  | cons b t ih =>
      rw [insertSorted]
      split
      · exact List.Perm.refl _
      · exact (List.Perm.cons b ih).trans (List.Perm.swap a b t)

theorem sortQ_perm (l : List ℚ) : List.Perm (sortQ l) l := by
  induction l with
  | nil => simp [sortQ]
  | cons a t ih =>
      exact (insertSorted_perm a (sortQ t)).trans (List.Perm.cons a ih)

theorem mem_of_mem_trimOutliers {f x : ℚ} {l : List ℚ}
    (h : x ∈ trimOutliers f l) : x ∈ l := by
  rw [trimOutliers] at h
  exact (sortQ_perm l).mem_iff.mp
    (List.mem_of_mem_drop (List.mem_of_mem_take h))

theorem chain'_zip_rel {α : Type} {R : α → α → Prop} :
    ∀ (l : List α), List.Chain' R l → ∀ p ∈ l.zip l.tail, R p.1 p.2
  | [], _, _, hp => by simp at hp
  | [_], _, _, hp => by simp at hp
  | a :: b :: t, h, p, hp => by
      rw [List.chain'_cons] at h
      simp only [List.tail_cons, List.zip_cons_cons, List.mem_cons] at hp
      rcases hp with rfl | hp'
      · exact h.1
      · exact chain'_zip_rel (b :: t) h.2 p (by simpa using hp')

theorem mean_nonneg {l : List ℚ} (h : ∀ x ∈ l, 0 ≤ x) : 0 ≤ mean l := by
  rw [mean]
  exact div_nonneg (List.sum_nonneg h) (by positivity)

theorem mean_pos {l : List ℚ} (h : ∀ x ∈ l, 0 < x) (hne : l ≠ []) :
    0 < mean l := by
  rw [mean]
  refine div_pos (List.sum_pos l h hne) ?_
  exact_mod_cast List.length_pos.mpr hne

theorem pairElapsed_pos {cfg : Config} {fps : ℚ} (hfps : 0 < fps)
    (hslow : 0 < cfg.slowmo_factor) {a b : TrackPoint}
    (hab : a.frameIdx < b.frameIdx) : 0 < pairElapsed cfg fps a b := by
  rw [pairElapsed, realSecondsPerFrame]
  have h1 : (0:ℚ) < (b.frameIdx : ℚ) - (a.frameIdx : ℚ) := by
    have h2 := (Nat.cast_lt (α := ℚ)).mpr hab
    linarith
  exact mul_pos h1 (div_pos hslow hfps)

theorem instSpeed_nonneg {dist : Pos → Pos → ℚ} {cfg : Config}
    {fps scale : ℚ} {a b : TrackPoint} (hfps : 0 < fps)
    (hslow : 0 < cfg.slowmo_factor) (hscale : 0 < scale)
    (hd : 0 ≤ dist a.pos b.pos) (hab : a.frameIdx < b.frameIdx) :
    0 ≤ instSpeed dist cfg fps scale a b := by
  rw [instSpeed]
  exact div_nonneg (mul_nonneg hd hscale.le) (pairElapsed_pos hfps hslow hab).le

theorem instSpeed_pos {dist : Pos → Pos → ℚ} {cfg : Config}
    {fps scale : ℚ} {a b : TrackPoint} (hfps : 0 < fps)
    (hslow : 0 < cfg.slowmo_factor) (hscale : 0 < scale)
    (hd : 0 < dist a.pos b.pos) (hab : a.frameIdx < b.frameIdx) :
    0 < instSpeed dist cfg fps scale a b := by
  rw [instSpeed]
  exact div_pos (mul_pos hd hscale) (pairElapsed_pos hfps hslow hab)

theorem speedEstimator_ok {dist : Pos → Pos → ℚ} {cfg : Config}
    {fps scale : ℚ} {pts : List TrackPoint} {out : SpeedOutput}
    (hok : speedEstimator dist cfg fps scale pts = Except.ok out) :
    2 ≤ (trimOutliers cfg.trimFraction (instSpeeds dist cfg fps scale pts)).length ∧
    out.speed_kmh =
      msToKmh (mean (trimOutliers cfg.trimFraction (instSpeeds dist cfg fps scale pts))) ∧
    out.speed_mph = out.speed_kmh * mphFactor := by
  simp only [speedEstimator] at hok
  split at hok
  · exact absurd hok (by simp)
  · next hcond =>
      have h2 := Nat.le_of_not_lt hcond
      cases hok
      exact ⟨h2, rfl, rfl⟩

theorem ptsSorted_append {pts : List TrackPoint} {p : TrackPoint}
    (hs : ptsSorted pts) (hb : ∀ q ∈ pts, q.frameIdx < p.frameIdx) :
    ptsSorted (pts ++ [p]) := by
  rw [ptsSorted, List.pairwise_append]
  refine ⟨hs, List.pairwise_singleton _ _, ?_⟩
  intro a ha b hbmem
  simp only [List.mem_singleton] at hbmem
  subst hbmem
  exact hb a ha

theorem trackerStep_inv {dist : Pos → Pos → ℚ} {cfg : Config} {idx : ℕ}
    {dets : List Detection} {st : TrackerSt} (h : trackerInv idx st) :
    trackerInv (idx + 1) (trackerStep dist cfg idx dets st) := by
  obtain ⟨hs, hb, hc⟩ := h
  have hb' : ptsBelow (idx + 1) st.current :=
    fun p hp => Nat.lt_succ_of_lt (hb p hp)
  have hsingle : ∀ d : Detection,
      ptsSorted [mkPoint idx d] ∧ ptsBelow (idx + 1) [mkPoint idx d] := by
    intro d
    refine ⟨List.pairwise_singleton _ _, ?_⟩
    intro p hp
    simp only [List.mem_singleton] at hp
    subst hp
    exact Nat.lt_succ_self idx
  have happend : ∀ d : Detection,
      ptsSorted (st.current ++ [mkPoint idx d]) ∧
      ptsBelow (idx + 1) (st.current ++ [mkPoint idx d]) := by
    intro d
    constructor
    · exact ptsSorted_append hs (fun q hq => hb q hq)
    · intro p hp
      rcases List.mem_append.mp hp with h1 | h1
      · exact Nat.lt_succ_of_lt (hb p h1)
      · simp only [List.mem_singleton] at h1
        subst h1
        exact Nat.lt_succ_self idx
  rw [trackerStep.eq_def]
  split
  · -- noTrack
    split
    · exact ⟨hs, hb', hc⟩
    · next d _ => exact ⟨(hsingle d).1, (hsingle d).2, hc⟩
  · -- tentative
    dsimp only
    split
    · next d _ =>
        split
        · exact ⟨(happend d).1, (happend d).2, hc⟩
        · exact ⟨(happend d).1, (happend d).2, hc⟩
    · refine ⟨List.Pairwise.nil, ?_, hc⟩
      intro p hp
      simp at hp
  · -- confirmed
    dsimp only
    split
    · next d _ => exact ⟨(happend d).1, (happend d).2, hc⟩
    · split
      · -- close the track
        refine ⟨List.Pairwise.nil, ?_, ?_⟩
        · intro p hp
          simp at hp
        · intro t ht
          rcases List.mem_append.mp ht with h1 | h1
          · exact hc t h1
          · simp only [List.mem_singleton] at h1
            subst h1
            exact hs
      · exact ⟨hs, hb', hc⟩

theorem runTrackerAux_inv (dist : Pos → Pos → ℚ) (cfg : Config) :
    ∀ (frames : List (List Detection)) (idx : ℕ) (st : TrackerSt),
      trackerInv idx st →
      trackerInv (idx + frames.length) (runTrackerAux dist cfg frames idx st)
  | [], idx, st, h => by simpa [runTrackerAux] using h
  | dets :: rest, idx, st, h => by
      have h2 := runTrackerAux_inv dist cfg rest (idx + 1)
        (trackerStep dist cfg idx dets st) (trackerStep_inv h)
      rw [runTrackerAux]
      have h3 : idx + (dets :: rest).length = idx + 1 + rest.length := by
        simp only [List.length_cons]
        omega
      rw [h3]
      exact h2

theorem analyze_cases (dist : Pos → Pos → ℚ) (cfg : Config) (v : VideoInput) :
    (∃ m, analyze dist cfg v = failResult m) ∨
    (∃ track out, acceptedTrack dist cfg v = some track ∧
        analyze dist cfg v =
          successResult cfg v track (calibrate cfg (mittSizesOf cfg v)) out) := by
  rw [analyze]
  split
  · exact Or.inl ⟨_, rfl⟩
  · split
    · exact Or.inl ⟨_, rfl⟩
    · split
      · exact Or.inl ⟨_, rfl⟩
      · next track heq =>
          dsimp only
          split
          · exact Or.inl ⟨_, rfl⟩
          · next out hout => exact Or.inr ⟨track, out, heq, rfl⟩

theorem runTracker_vMoving :
    runTracker l1dist cfgW (ballFramesOf cfgW vMoving) = [movingTrack] := by
  norm_num [runTracker, runTrackerAux, trackerStep, initialTracker,
    finalizeTracker, ballFramesOf, detectorAdapter, isBall, predictPos,
    gatedDets, closestTo, mkPoint, center, ballDet, vMoving, cfgW, l1dist,
    movingTrack, ptsMoving, List.filter_cons, decide_eq_true_eq]

theorem speedEstimator_ptsMoving :
    speedEstimator l1dist cfgW 240 (1/100) ptsMoving =
      Except.ok movingSpeedOut := by
  norm_num [speedEstimator, instSpeeds, consecutivePairs, instSpeed,
    pairElapsed, realSecondsPerFrame, cfgW, l1dist, trimOutliers, trimCount,
    sortQ, insertSorted, mean, msToKmh, mphFactor, trackingDurationMs,
    ptsMoving, movingSpeedOut]

theorem analyze_vMoving : analyze l1dist cfgW vMoving = movingResult := by
  norm_num [analyze, ballFramesOf, mittSizesOf, detectorAdapter,
    acceptedTrack, runTracker, runTrackerAux, trackerStep, initialTracker,
    finalizeTracker, bestTrack, predictPos, gatedDets, closestTo, mkPoint,
    center, ballDet, vMoving, cfgW, l1dist, calibrate, speedEstimator,
    instSpeeds, consecutivePairs, instSpeed, pairElapsed,
    realSecondsPerFrame, trimOutliers, trimCount, sortQ, insertSorted, mean,
    msToKmh, mphFactor, trackingDurationMs, isBall, isMitt, successResult,
    movingResult, List.filter_cons, decide_eq_true_eq]

/-! ## Claims -/

/-- C8: for every Track produced by the Tracker, the frame indices of its
(frame index, position, confidence) points are strictly increasing. -/
theorem track_indices_strictly_increasing (dist : Pos → Pos → ℚ)
    (cfg : Config) (frames : List (List Detection)) (t : Track)
    (ht : t ∈ runTracker dist cfg frames) :
    List.Pairwise (fun a b => a.frameIdx < b.frameIdx) t.points := by
  have h0 : trackerInv 0 initialTracker := by
    refine ⟨List.Pairwise.nil, ?_, ?_⟩ <;> simp [initialTracker, ptsBelow]
  have hinv := runTrackerAux_inv dist cfg frames 0 initialTracker h0
  obtain ⟨hs, _, hc⟩ := hinv
  rw [runTracker, finalizeTracker] at ht
  rcases List.mem_append.mp ht with h1 | h1
  · exact hc t h1
  · simp only [List.mem_singleton] at h1
    subst h1
    exact hs

/-- C8 witness: the theorem applied to the concrete track the Tracker
produces on the six-frame moving-ball video. -/
theorem track_indices_witness :
    movingTrack ∈ runTracker l1dist cfgW (ballFramesOf cfgW vMoving) ∧
    List.Pairwise (fun a b => a.frameIdx < b.frameIdx) movingTrack.points := by
  have hm : movingTrack ∈ runTracker l1dist cfgW (ballFramesOf cfgW vMoving) := by
    rw [runTracker_vMoving]
    exact List.mem_singleton_self _
  exact ⟨hm, track_indices_strictly_increasing l1dist cfgW
    (ballFramesOf cfgW vMoving) movingTrack hm⟩

/-- C9: calling the upload handler with no file selected sets the
file-selection error message and returns immediately — no network request is
issued, and the result state is unchanged. -/
theorem upload_no_file_short_circuit (s : ComponentState) (o : FetchOutcome)
    (h : s.file = none) :
    handleUpload s o = ({ s with error := some msgSelectFile }, false) ∧
    (handleUpload s o).1.result = s.result ∧
    (handleUpload s o).2 = false := by
  rw [handleUpload.eq_def, h]
  exact ⟨rfl, rfl, rfl⟩

/-- C9 witness: the theorem applied to the concrete no-file state. -/
theorem upload_no_file_witness :
    handleUpload sNoFile (FetchOutcome.networkError "TypeError" "failed") =
      ({ sNoFile with error := some msgSelectFile }, false) ∧
    (handleUpload sNoFile (FetchOutcome.networkError "TypeError" "failed")).1.result
      = sNoFile.result :=
  ⟨(upload_no_file_short_circuit sNoFile _ rfl).1,
   (upload_no_file_short_circuit sNoFile _ rfl).2.1⟩

/-- C10: selecting a new file via the change handler or the drop handler
stores the file, resets result and error to null, and leaves the loading flag
unchanged. -/
theorem file_selection_resets_state (s : ComponentState) (f : WebFile)
    (rest : List WebFile) :
    handleFileChange s (f :: rest) =
      { s with file := some f, result := none, error := none } ∧
    handleDrop s (f :: rest) =
      { s with file := some f, result := none, error := none,
               dragActive := false } ∧
    (handleFileChange s (f :: rest)).loading = s.loading ∧
    (handleDrop s (f :: rest)).loading = s.loading := by
  refine ⟨rfl, ?_, rfl, rfl⟩
  rw [handleDrop]
  rfl

/-- C2: between consecutive frames the true elapsed real time is
slowmo_factor / fps; instantaneous speed is pixel distance times scale over
elapsed time; and the spec's worked 240 fps / 8x / 3-frames / 50-pixel /
0.01 m-per-pixel scenario gives elapsed 0.1 s and 5 m/s = 18 km/h. -/
theorem elapsed_time_and_inst_speed_scenario :
    (∀ (cfg : Config) (fps : ℚ) (i : ℕ) (p q : Pos) (c c' : ℚ),
        pairElapsed cfg fps { frameIdx := i, pos := p, conf := c }
            { frameIdx := i + 1, pos := q, conf := c' } =
          cfg.slowmo_factor / fps) ∧
    (∀ (dist : Pos → Pos → ℚ) (cfg : Config) (fps scale : ℚ)
        (a b : TrackPoint),
        instSpeed dist cfg fps scale a b =
          dist a.pos b.pos * scale / pairElapsed cfg fps a b) ∧
    pairElapsed cfgW 240 scenA scenB = 1/10 ∧
    instSpeed l1dist cfgW 240 (1/100) scenA scenB = 5 ∧
    msToKmh 5 = 18 := by
  refine ⟨?_, fun _ _ _ _ _ _ => rfl, ?_, ?_, by norm_num [msToKmh]⟩
  · intro cfg fps i p q c c'
    rw [pairElapsed, realSecondsPerFrame]
    push_cast
    ring
  · norm_num [pairElapsed, realSecondsPerFrame, cfgW, scenA, scenB]
  · norm_num [instSpeed, pairElapsed, realSecondsPerFrame, cfgW, scenA,
      scenB, l1dist]

/-- C5: with at least K qualifying mitt detections the scale factor equals
the known mitt physical size divided by the median apparent pixel size, so
halving the configured mitt size halves the scale factor. -/
theorem scale_factor_formula_and_halving (cfg : Config) (sizes : List ℚ)
    (hK : cfg.minMittDetections ≤ sizes.length) (hne : sizes ≠ []) :
    (calibrate cfg sizes).scale_factor = cfg.mitt_size_m / median sizes ∧
    (calibrate { cfg with mitt_size_m := cfg.mitt_size_m / 2 } sizes).scale_factor
      = (calibrate cfg sizes).scale_factor / 2 := by
  rw [calibrate, calibrate, if_pos ⟨hK, hne⟩, if_pos ⟨hK, hne⟩]
  refine ⟨rfl, ?_⟩
  show cfg.mitt_size_m / 2 / median sizes = cfg.mitt_size_m / median sizes / 2
  ring

/-- C5 witness: the theorem applied to three qualifying mitt sizes. -/
theorem scale_factor_witness :
    (calibrate cfgW [30, 32, 34]).scale_factor =
      cfgW.mitt_size_m / median [30, 32, 34] ∧
    (calibrate { cfgW with mitt_size_m := cfgW.mitt_size_m / 2 }
        [30, 32, 34]).scale_factor =
      (calibrate cfgW [30, 32, 34]).scale_factor / 2 :=
  scale_factor_formula_and_halving cfgW [30, 32, 34] (by decide) (by decide)

/-- C6: the pipeline is a deterministic function of its input — running the
analysis twice on the identical video and configuration yields identical
results, in particular identical speed_kmh. -/
theorem pipeline_deterministic (dist : Pos → Pos → ℚ) (cfg : Config)
    (v v' : VideoInput) (h : v = v') :
    analyze dist cfg v = analyze dist cfg v' ∧
    (analyze dist cfg v).speed_kmh = (analyze dist cfg v').speed_kmh := by
  subst h
  exact ⟨rfl, rfl⟩

/-- C6 witness: the theorem applied to two runs on the moving-ball video. -/
theorem pipeline_deterministic_witness :
    (analyze l1dist cfgW vMoving).speed_kmh =
      (analyze l1dist cfgW vMoving).speed_kmh :=
  (pipeline_deterministic l1dist cfgW vMoving vMoving rfl).2

/-- C1 counterexample: a 240 fps input with positive fps, positive slow-motion
factor, positive scale and four usable detections satisfies every premise of
the claim, yet because the ball never moves the Speed Estimator returns
speed_kmh = 0 — which is not greater than 0. -/
theorem speed_kmh_not_always_pos :
    0 < (240:ℚ) ∧ 0 < cfgW.slowmo_factor ∧ 0 < (1/100 : ℚ) ∧
    List.Chain' (fun a b => a.frameIdx < b.frameIdx) stationaryPts ∧
    2 ≤ stationaryPts.length ∧
    speedEstimator l1dist cfgW 240 (1/100) stationaryPts =
      Except.ok { speed_kmh := 0, speed_mph := 0, tracking_duration_ms := 100 } ∧
    ¬ (0:ℚ) < 0 := by
  refine ⟨by norm_num, by norm_num [cfgW], by norm_num,
    by simp [stationaryPts, List.chain'_cons], by decide, ?_, by norm_num⟩
  norm_num [speedEstimator, instSpeeds, consecutivePairs, instSpeed,
    pairElapsed, realSecondsPerFrame, cfgW, l1dist, trimOutliers, trimCount,
    sortQ, insertSorted, mean, msToKmh, mphFactor, trackingDurationMs,
    stationaryPts]

/-- C1 (amended): under the claim's premises the Speed Estimator's output
satisfies speed_kmh ≥ 0 (with strict positivity whenever every consecutive
pair of track points is a positive pixel distance apart), and speed_mph
equals speed_kmh × 0.621371 within a tolerance of 0.001. -/
theorem speed_output_nonneg_and_mph_ratio (dist : Pos → Pos → ℚ)
    (cfg : Config) (fps scale : ℚ) (pts : List TrackPoint)
    (hfps : 0 < fps) (hslow : 0 < cfg.slowmo_factor) (hscale : 0 < scale)
    (hinc : List.Chain' (fun a b => a.frameIdx < b.frameIdx) pts)
    (hdist : ∀ p q, 0 ≤ dist p q) (_hlen : 2 ≤ pts.length)
    (out : SpeedOutput)
    (hok : speedEstimator dist cfg fps scale pts = Except.ok out) :
    0 ≤ out.speed_kmh ∧
    |out.speed_mph - out.speed_kmh * mphFactor| ≤ 1/1000 ∧
    ((∀ p ∈ consecutivePairs pts, 0 < dist p.1.pos p.2.pos) →
      0 < out.speed_kmh) := by
  obtain ⟨hlen2, hkmh, hmph⟩ := speedEstimator_ok hok
  have hmem : ∀ x ∈ trimOutliers cfg.trimFraction (instSpeeds dist cfg fps scale pts),
      ∃ p ∈ consecutivePairs pts, x = instSpeed dist cfg fps scale p.1 p.2 := by
    intro x hx
    have hx2 : x ∈ instSpeeds dist cfg fps scale pts := mem_of_mem_trimOutliers hx
    rw [instSpeeds] at hx2
    obtain ⟨p, hp, hpx⟩ := List.mem_map.mp hx2
    exact ⟨p, hp, hpx.symm⟩
  have hrel : ∀ p ∈ consecutivePairs pts, p.1.frameIdx < p.2.frameIdx := by
    intro p hp
    rw [consecutivePairs] at hp
    exact chain'_zip_rel pts hinc p hp
  have hnn : ∀ x ∈ trimOutliers cfg.trimFraction (instSpeeds dist cfg fps scale pts),
      0 ≤ x := by
    intro x hx
    obtain ⟨p, hp, rfl⟩ := hmem x hx
    exact instSpeed_nonneg hfps hslow hscale (hdist _ _) (hrel p hp)
  refine ⟨?_, ?_, ?_⟩
  · rw [hkmh, msToKmh]
    have h1 := mean_nonneg hnn
    have h2 : (0:ℚ) ≤ 18/5 := by norm_num
    exact mul_nonneg h1 h2
  · rw [hmph, sub_self, abs_zero]
    norm_num
  · intro hpos
    have hall : ∀ x ∈ trimOutliers cfg.trimFraction (instSpeeds dist cfg fps scale pts),
        0 < x := by
      intro x hx
      obtain ⟨p, hp, rfl⟩ := hmem x hx
      exact instSpeed_pos hfps hslow hscale (hpos p hp) (hrel p hp)
    have hne : trimOutliers cfg.trimFraction (instSpeeds dist cfg fps scale pts) ≠ [] := by
      intro hnil
      rw [hnil] at hlen2
      simp at hlen2
    rw [hkmh, msToKmh]
    have h1 := mean_pos hall hne
    have h2 : (0:ℚ) < 18/5 := by norm_num
    exact mul_pos h1 h2

/-- C1 witness: the amended theorem applied to the moving-ball track, where
the output speed is strictly positive and the mph ratio holds. -/
theorem speed_output_witness :
    0 ≤ movingSpeedOut.speed_kmh ∧
    |movingSpeedOut.speed_mph - movingSpeedOut.speed_kmh * mphFactor| ≤ 1/1000 ∧
    0 < movingSpeedOut.speed_kmh := by
  have h := speed_output_nonneg_and_mph_ratio l1dist cfgW 240 (1/100)
    ptsMoving (by norm_num) (by norm_num [cfgW]) (by norm_num)
    (by simp [ptsMoving, List.chain'_cons]) l1dist_nonneg (by decide)
    movingSpeedOut speedEstimator_ptsMoving
  refine ⟨h.1, h.2.1, h.2.2 ?_⟩
  intro p hp
  simp only [consecutivePairs, ptsMoving, List.tail_cons, List.zip_cons_cons,
    List.zip_nil_right, List.mem_cons, List.not_mem_nil, or_false] at hp
  rcases hp with rfl | rfl | rfl | rfl | rfl
  all_goals norm_num [l1dist]

/-- C3: fatal analyses return success false with a message and no numeric
speed fields; an analysis whose tracker never reaches Confirmed fails this
way; and on receiving a success-false response the frontend sets only the
error message and never renders the speed panel. -/
theorem failure_short_circuit_and_frontend :
    (∀ (dist : Pos → Pos → ℚ) (cfg : Config) (v : VideoInput),
        (analyze dist cfg v).success = false →
        (analyze dist cfg v).message.isSome = true ∧
        (analyze dist cfg v).speed_kmh = none ∧
        (analyze dist cfg v).speed_mph = none ∧
        (analyze dist cfg v).tracking_duration_ms = none ∧
        (analyze dist cfg v).scale_factor = none) ∧
    (∀ (dist : Pos → Pos → ℚ) (cfg : Config) (v : VideoInput),
        acceptedTrack dist cfg v = none →
        (analyze dist cfg v).success = false) ∧
    (∀ (s : ComponentState) (data : AnalysisResult),
        s.file.isSome = true → data.success = false →
        rendersSpeedPanel (handleUpload s (FetchOutcome.response data)).1 = false ∧
        rendersErrorPanel (handleUpload s (FetchOutcome.response data)).1 = true) := by
  refine ⟨?_, ?_, ?_⟩
  · intro dist cfg v hf
    rcases analyze_cases dist cfg v with ⟨m, hm⟩ | ⟨track, out, htr, hres⟩
    · rw [hm]
      exact ⟨rfl, rfl, rfl, rfl, rfl⟩
    · rw [hres] at hf
      exact absurd hf (by simp [successResult])
  · intro dist cfg v htr
    rw [analyze]
    split
    · rfl
    · split
      · rfl
      · rw [htr]
        rfl
  · intro s data hfile hdata
    obtain ⟨f, hf⟩ := Option.isSome_iff_exists.mp hfile
    rw [rendersSpeedPanel, rendersErrorPanel, handleUpload.eq_def, hf]
    simp [hdata]

/-- C3 witness: the theorem applied to the empty video (whose tracker never
confirms a track) and to a concrete failure response at the frontend. -/
theorem failure_short_circuit_witness :
    (analyze l1dist cfgW vEmpty).success = false ∧
    (analyze l1dist cfgW vEmpty).message.isSome = true ∧
    (analyze l1dist cfgW vEmpty).speed_kmh = none ∧
    rendersSpeedPanel (handleUpload sWithFile
      (FetchOutcome.response (failResult msgInsufficient))).1 = false := by
  have h := failure_short_circuit_and_frontend
  have h2 := h.2.1 l1dist cfgW vEmpty (by decide)
  have h1 := h.1 l1dist cfgW vEmpty h2
  have h3 := h.2.2 sWithFile (failResult msgInsufficient) (by decide) rfl
  exact ⟨h2, h1.1, h1.2.1, h3.1⟩

/-- C4: with sufficient ball detections but fewer than K qualifying mitt
detections, the analysis still succeeds with mitt_detected false, method
default_fallback, the configured default scale factor, and a non-empty
warning. -/
theorem calibration_fallback_success (dist : Pos → Pos → ℚ) (cfg : Config)
    (v : VideoInput)
    (hfew : (mittSizesOf cfg v).length < cfg.minMittDetections)
    (hsucc : (analyze dist cfg v).success = true) :
    (analyze dist cfg v).mitt_detected = some false ∧
    (analyze dist cfg v).calibration_method = some fallbackMethod ∧
    (analyze dist cfg v).scale_factor = some cfg.default_scale ∧
    ∃ w, (analyze dist cfg v).warning = some w ∧ w ≠ "" := by
  rcases analyze_cases dist cfg v with ⟨m, hm⟩ | ⟨track, out, htr, hres⟩
  · rw [hm] at hsucc
    exact absurd hsucc (by simp [failResult])
  · have hcal : calibrate cfg (mittSizesOf cfg v) =
        { scale_factor := cfg.default_scale, method := fallbackMethod,
          mitt_detected := false } := by
      rw [calibrate, if_neg]
      intro hcon
      exact (not_le.mpr hfew) hcon.1
    rw [hres, hcal]
    exact ⟨rfl, rfl, rfl, warnFallback, rfl, by decide⟩

/-- C4 witness: the theorem applied to the moving-ball video, which contains
no mitt detection at all. -/
theorem calibration_fallback_witness :
    (mittSizesOf cfgW vMoving).length < cfgW.minMittDetections ∧
    (analyze l1dist cfgW vMoving).success = true ∧
    (analyze l1dist cfgW vMoving).calibration_method = some fallbackMethod ∧
    (analyze l1dist cfgW vMoving).scale_factor = some cfgW.default_scale ∧
    (analyze l1dist cfgW vMoving).mitt_detected = some false := by
  have h1 : (mittSizesOf cfgW vMoving).length < cfgW.minMittDetections := by
    norm_num [mittSizesOf, detectorAdapter, isMitt, ballDet, vMoving, cfgW,
      List.filter_cons, decide_eq_true_eq]
  have h2 : (analyze l1dist cfgW vMoving).success = true := by
    rw [analyze_vMoving]
    rfl
  have h := calibration_fallback_success l1dist cfgW vMoving h1 h2
  exact ⟨h1, h2, h.2.1, h.2.2.1, h.1⟩

/-- C7: every serialized response key is a field of the frontend's
AnalysisResult interface; a failure response carries exactly success and
message; a success response carries exactly the success field set (plus the
optional warning) and a calibration_method of mitt_auto or
default_fallback. -/
theorem response_fields_match_frontend (dist : Pos → Pos → ℚ)
    (cfg : Config) (v : VideoInput) :
    (∀ k ∈ responseKeys (analyze dist cfg v), k ∈ frontendResultFields) ∧
    ((analyze dist cfg v).success = false →
        responseKeys (analyze dist cfg v) = ["success", "message"]) ∧
    ((analyze dist cfg v).success = true →
        responseKeys (analyze dist cfg v) =
          successBaseKeys ++
            (if (analyze dist cfg v).warning.isSome then ["warning"] else []) ∧
        ((analyze dist cfg v).calibration_method = some mittAutoMethod ∨
         (analyze dist cfg v).calibration_method = some fallbackMethod)) := by
  refine ⟨fun k hk => List.mem_of_mem_filter hk, ?_, ?_⟩
  · intro _
    rcases analyze_cases dist cfg v with ⟨m, hm⟩ | ⟨track, out, htr, hres⟩
    · rw [hm]
      simp [responseKeys, frontendResultFields, fieldPresent, failResult]
    · next hf =>
        rw [hres] at hf
        exact absurd hf (by simp [successResult])
  · intro hs
    rcases analyze_cases dist cfg v with ⟨m, hm⟩ | ⟨track, out, htr, hres⟩
    · rw [hm] at hs
      exact absurd hs (by simp [failResult])
    · rw [hres]
      constructor
      · by_cases hmitt : (calibrate cfg (mittSizesOf cfg v)).mitt_detected
        · simp [responseKeys, frontendResultFields, fieldPresent,
            successResult, successBaseKeys, hmitt]
        · simp [responseKeys, frontendResultFields, fieldPresent,
            successResult, successBaseKeys, hmitt]
      · rw [successResult]
        show some (calibrate cfg (mittSizesOf cfg v)).method = _ ∨
          some (calibrate cfg (mittSizesOf cfg v)).method = _
        rw [calibrate]
        split
        · exact Or.inl rfl
        · exact Or.inr rfl

/-- C7 witness: the theorem applied to the moving-ball analysis, whose
response carries the success keys plus the fallback warning. -/
theorem response_fields_witness :
    (∀ k ∈ responseKeys (analyze l1dist cfgW vMoving),
        k ∈ frontendResultFields) ∧
    responseKeys (analyze l1dist cfgW vMoving) =
      successBaseKeys ++ ["warning"] := by
  have h := response_fields_match_frontend l1dist cfgW vMoving
  have hs : (analyze l1dist cfgW vMoving).success = true := by
    rw [analyze_vMoving]
    rfl
  have hw : (analyze l1dist cfgW vMoving).warning.isSome = true := by
    rw [analyze_vMoving]
    rfl
  have h2 := (h.2.2 hs).1
  rw [hw] at h2
  exact ⟨h.1, by simpa using h2⟩

end BallSpeed
